import Mathlib

/-!
# Verification of the `doc_converter` batch processing engine

Shallow embedding of `src/doc_converter/core/batch_processor.py` together
with the parts of `document_converter.py` and `pdf_converter.py` that the
batch engine calls.  External collaborators (LibreOffice rendering,
`pdf2image.convert_from_path`, the HTML renderer, the file system) are
modelled as oracle functions supplied through the `Collaborators`
structure; a Python exception with message `e` is modelled as
`Except.error e`.  The non-deterministic completion order of
`concurrent.futures.as_completed` is modelled by quantifying over an
arbitrary permutation `completionOrder` of the submitted file list.
-/

namespace DocConv

/-- Model of a `pathlib.Path` value, decomposed into the parts the batch
engine reads: `parent` (the directory part), `stem` (final component
without its last extension) and `suffix` (the last extension including
its leading dot, or `""`). -/
structure PurePath where
  parent : String
  stem : String
  suffix : String
deriving DecidableEq, Repr

/-- `Path.name`: final component, i.e. `stem + suffix`. -/
def PurePath.name (p : PurePath) : String := p.stem ++ p.suffix

/-- `str(path)`: the rendered path string. -/
def PurePath.toStr (p : PurePath) : String := p.parent ++ "/" ++ p.name

/-- Oracles for the external collaborators and the file system.
`docxConverterToPdf` models `DOCXConverter.to_pdf` (the LibreOffice
headless renderer, also used for PPTX), `docxConverterTxtToPdf` models
`DOCXConverter.txt_to_pdf`, `docxConverterToHtml` models
`DOCXConverter.to_html`, `htmlConverterToPdf` models
`HTMLConverter.to_pdf`, and `convertFromPath` models
`pdf2image.convert_from_path` (returning one opaque image per rendered
page).  `Except.error e` models the collaborator raising an exception
whose `str` is `e`. -/
structure Collaborators where
  fileExists : PurePath → Bool
  docxConverterToPdf : PurePath → String → Except String String
  docxConverterTxtToPdf : PurePath → String → Except String String
  docxConverterToHtml : PurePath → String → Except String String
  htmlConverterToPdf : String → String → Except String String
  convertFromPath : PurePath → Except String (List Unit)

/-- Python `str.lower()`, modelled as per-character lowering of the
character list. -/
def pyLower (s : String) : String := ⟨s.data.map Char.toLower⟩

/-- Python `str.lstrip(".")`: remove all leading `'.'` characters. -/
def pyLstripDots (s : String) : String := ⟨s.data.dropWhile (· = '.')⟩

/-- Python `f"{n:03d}"` for a natural number: the decimal representation
left-padded with zeros to a minimum width of 3. -/
def pad03 (n : Nat) : String :=
  ⟨List.replicate (3 - (Nat.repr n).length) '0' ++ (Nat.repr n).data⟩

/-- The page file name built in `PDFConverter.to_images`
(`pdf_converter.py` line 73): `f"page_{page_num:03d}.{format.lower()}"`. -/
def pageFilename (pageNum : Nat) (format : String) : String :=
  "page_" ++ pad03 pageNum ++ "." ++ pyLower format

namespace PDFConverter

/-- `PDFConverter.to_images` (`pdf_converter.py` lines 29-95): render the
PDF via `convert_from_path` (the `rendered` oracle result), then save page
`i` (0-based) as `output_dir / f"page_{(first_page or 1) + i:03d}.{format.lower()}"`,
returning the list of created paths.  A rendering exception propagates
(the `except` clause re-raises). -/
def to_images (rendered : Except String (List Unit)) (outputDir : String)
    (format : String) (firstPage : Option Nat) : Except String (List String) :=
  match rendered with
  | .error e => .error e
  | .ok images =>
    .ok ((List.range images.length).map fun i =>
      outputDir ++ "/" ++ pageFilename (firstPage.getD 1 + i) format)

end PDFConverter

namespace DocumentConverter

/-- `DocumentConverter.pdf_to_images` (`document_converter.py` lines 44-82)
as called by the batch engine (explicit `output_dir`, so the default-dir
branch is not taken; `first_page`/`last_page` stay `None`). -/
def pdf_to_images (c : Collaborators) (pdfPath : PurePath) (outputDir : String)
    (format : String) : Except String (List String) :=
  if c.fileExists pdfPath = false then
    .error ("PDF file not found: " ++ pdfPath.toStr)
  else if format = "jpeg" ∨ format = "png" then
    PDFConverter.to_images (c.convertFromPath pdfPath) outputDir format none
  else
    .error ("Unsupported format: " ++ format)

/-- `DocumentConverter.docx_to_pdf` (`document_converter.py` lines 84-114)
with an explicit output path, as the batch engine always supplies one. -/
def docx_to_pdf (c : Collaborators) (docxPath : PurePath) (outputPath : String) :
    Except String String :=
  if c.fileExists docxPath then c.docxConverterToPdf docxPath outputPath
  else .error ("DOCX file not found: " ++ docxPath.toStr)

/-- `DocumentConverter.pptx_to_pdf` (`document_converter.py` lines 116-148);
the office renderer used for DOCX also handles PPTX. -/
def pptx_to_pdf (c : Collaborators) (pptxPath : PurePath) (outputPath : String) :
    Except String String :=
  if c.fileExists pptxPath then c.docxConverterToPdf pptxPath outputPath
  else .error ("PPTX file not found: " ++ pptxPath.toStr)

/-- `DocumentConverter.txt_to_pdf` (`document_converter.py` lines 150-178). -/
def txt_to_pdf (c : Collaborators) (txtPath : PurePath) (outputPath : String) :
    Except String String :=
  if c.fileExists txtPath then c.docxConverterTxtToPdf txtPath outputPath
  else .error ("TXT file not found: " ++ txtPath.toStr)

/-- `DocumentConverter.html_to_pdf` (`document_converter.py` lines 180-200);
note there is no existence check on the HTML source. -/
def html_to_pdf (c : Collaborators) (htmlSource : String) (outputPath : String) :
    Except String String :=
  c.htmlConverterToPdf htmlSource outputPath

/-- `DocumentConverter.docx_to_html` (`document_converter.py` lines 202-232). -/
def docx_to_html (c : Collaborators) (docxPath : PurePath) (outputPath : String) :
    Except String String :=
  if c.fileExists docxPath then c.docxConverterToHtml docxPath outputPath
  else .error ("DOCX file not found: " ++ docxPath.toStr)

end DocumentConverter

/-- The per-file conversion outcome dictionary returned by
`_convert_single_file` (`"type": "single_file"` or `"multiple_images"`). -/
inductive TaskResult where
  | singleFile (inputFile outputFile format : String)
  | multipleImages (inputFile : String) (outputFiles : List String) (format : String)
deriving DecidableEq, Repr

/-- `input_file.suffix.lower().lstrip(".")` (`batch_processor.py` line 246). -/
def inputExtOf (f : PurePath) : String :=
  pyLstripDots (pyLower f.suffix)

/-- Output directory for image targets:
`output_dir / f"{input_file.stem}_images"` (`batch_processor.py` line 251). -/
def imagesOutputDir (outputDir : String) (f : PurePath) : String :=
  outputDir ++ "/" ++ f.stem ++ "_images"

/-- Output path for single-file targets:
`output_dir / f"{input_file.stem}.{target_format}"` (`batch_processor.py`
line 269). -/
def singleOutputPath (outputDir : String) (f : PurePath) (targetFormat : String) : String :=
  outputDir ++ "/" ++ f.stem ++ "." ++ targetFormat

/-- `BatchProcessor._convert_single_file` (`batch_processor.py` lines
229-299): route on `(input_ext, target_format)`, compute the output path,
invoke the corresponding `DocumentConverter` operation and wrap the result;
unsupported pairs raise `ValueError` (modelled as `Except.error` with the
source's message). -/
def convert_single_file (c : Collaborators) (inputFile : PurePath)
    (outputDir : String) (targetFormat : String) : Except String TaskResult :=
  let inputExt := inputExtOf inputFile
  if targetFormat = "jpeg" ∨ targetFormat = "png" then
    let fileOutputDir := imagesOutputDir outputDir inputFile
    if inputExt = "pdf" then
      (DocumentConverter.pdf_to_images c inputFile fileOutputDir targetFormat).map
        (fun outs => TaskResult.multipleImages inputFile.toStr outs targetFormat)
    else
      .error ("Cannot convert " ++ inputExt ++ " to " ++ targetFormat)
  else
    let outputFile := singleOutputPath outputDir inputFile targetFormat
    if targetFormat = "pdf" then
      (if inputExt = "docx" then DocumentConverter.docx_to_pdf c inputFile outputFile
       else if inputExt = "pptx" then DocumentConverter.pptx_to_pdf c inputFile outputFile
       else if inputExt = "txt" then DocumentConverter.txt_to_pdf c inputFile outputFile
       else if inputExt = "html" then
         DocumentConverter.html_to_pdf c inputFile.toStr outputFile
       else .error ("Cannot convert " ++ inputExt ++ " to PDF")).map
        (fun p => TaskResult.singleFile inputFile.toStr p targetFormat)
    else if targetFormat = "html" then
      (if inputExt = "docx" then DocumentConverter.docx_to_html c inputFile outputFile
       else .error ("Cannot convert " ++ inputExt ++ " to HTML")).map
        (fun p => TaskResult.singleFile inputFile.toStr p targetFormat)
    else
      .error ("Unsupported target format: " ++ targetFormat)

/-- One failure entry of the `"errors"` list: `{"file": ..., "error": ...}`. -/
structure ErrorInfo where
  file : String
  error : String
deriving DecidableEq, Repr

/-- The results dictionary built by `_process_files_parallel`
(`batch_processor.py` lines 177-183). -/
structure BatchSummary where
  total_files : Nat
  successful : Nat
  failed : Nat
  results : List TaskResult
  errors : List ErrorInfo
deriving DecidableEq, Repr

/-- A caller-supplied progress callback `(completed, total, filename)`;
`Except.error e` models the callback raising. -/
def ProgressCallback : Type := Nat → Nat → String → Except String Unit

/-- The body of the `as_completed` loop (`batch_processor.py` lines
204-220) for one completed future: the `try/except` aggregates the
outcome into the results dictionary, then the `finally` clause runs
`update_progress` (lines 187-192), which under the lock increments
`completed_count` and then invokes the progress callback if provided.
A callback exception propagates out of the loop. -/
def completion_step (c : Collaborators) (outputDir targetFormat : String)
    (total : Nat) (cb : Option ProgressCallback) (st : BatchSummary × Nat)
    (file : PurePath) : Except String (BatchSummary × Nat) :=
  let s := st.1
  let s' := match convert_single_file c file outputDir targetFormat with
    | .ok r => { s with successful := s.successful + 1, results := s.results ++ [r] }
    | .error e => { s with failed := s.failed + 1, errors := s.errors ++ [⟨file.toStr, e⟩] }
  let count' := st.2 + 1
  match cb with
  | none => .ok (s', count')
  | some f =>
    match f count' total file.name with
    | .ok _ => .ok (s', count')
    | .error e => .error e

/-- The `as_completed` loop: completed futures are consumed one by one in
the (arbitrary) completion order; a callback exception aborts the loop. -/
def run_completions (c : Collaborators) (outputDir targetFormat : String)
    (total : Nat) (cb : Option ProgressCallback) :
    BatchSummary × Nat → List PurePath → Except String (BatchSummary × Nat)
  | st, [] => .ok st
  | st, f :: rest =>
    match completion_step c outputDir targetFormat total cb st f with
    | .ok st' => run_completions c outputDir targetFormat total cb st' rest
    | .error e => .error e

/-- `BatchProcessor._process_files_parallel` (`batch_processor.py` lines
158-227).  `files` is the submitted list (fixing `total_files = len(files)`
before any task runs); `completionOrder` is the order in which
`as_completed` yields the futures, an arbitrary permutation of `files`.
Constructing `ThreadPoolExecutor(max_workers=w)` with `w <= 0` raises
`ValueError("max_workers must be greater than 0")` before any task is
submitted (CPython `concurrent.futures.thread` contract). -/
def process_files_parallel (c : Collaborators) (cb : Option ProgressCallback)
    (files completionOrder : List PurePath) (outputDir targetFormat : String)
    (maxWorkers : Int) : Except String BatchSummary :=
  if maxWorkers ≤ 0 then .error "max_workers must be greater than 0"
  else
    (run_completions c outputDir targetFormat files.length cb
      ({ total_files := files.length, successful := 0, failed := 0,
         results := [], errors := [] }, 0)
      completionOrder).map (·.1)

/-- Observable events of the completion-handling loop body, in program
order, for the temporal claims. -/
inductive SchedulerEvent where
  | recordSuccess (file : String)
  | recordFailure (file : String) (error : String)
  | increment (newCount : Nat)
  | progressCall (completed total : Nat) (filename : String)
deriving DecidableEq, Repr

/-- Event-trace view of the same loop body as `completion_step`
(`batch_processor.py` lines 204-220 with `update_progress`, lines
185-192): the `try/except` first appends the outcome to the results
dictionary, then the `finally` clause increments `completed_count` under
the lock and, still under the lock, calls the progress callback. -/
def completion_events (outcome : Except String TaskResult) (file : PurePath)
    (count total : Nat) (hasCallback : Bool) : List SchedulerEvent :=
  (match outcome with
   | .ok _ => [.recordSuccess file.toStr]
   | .error e => [.recordFailure file.toStr e]) ++
  [.increment (count + 1)] ++
  (if hasCallback then [.progressCall (count + 1) total file.name] else [])

/-- The full event trace of the `as_completed` loop (callback assumed not
to raise), starting from `completed_count = count`. -/
def batch_events (c : Collaborators) (outputDir targetFormat : String)
    (hasCallback : Bool) (total : Nat) : Nat → List PurePath → List SchedulerEvent
  | _, [] => []
  | count, f :: rest =>
    completion_events (convert_single_file c f outputDir targetFormat) f count total
        hasCallback
      ++ batch_events c outputDir targetFormat hasCallback total (count + 1) rest

/-- Total order used to model Python's `sorted` on `Path` values: compare
the rendered path strings. -/
def pathLe (a b : PurePath) : Prop := a.toStr ≤ b.toStr

instance : DecidableRel pathLe := fun a b =>
  inferInstanceAs (Decidable (a.toStr ≤ b.toStr))

instance : IsTotal PurePath pathLe := ⟨fun a b => le_total a.toStr b.toStr⟩

instance : IsTrans PurePath pathLe := ⟨fun _ _ _ => le_trans⟩

/-- `BatchProcessor._find_files` (`batch_processor.py` lines 126-156).
`globMatches p` / `rglobMatches p` are oracles for `directory.glob(p)` /
`directory.rglob(p)` (the unchanged directory's contents);
`sorted(list(set(files)))` is modelled as deduplication followed by a
sort by the total order `pathLe`. -/
def find_files (globMatches rglobMatches : String → List PurePath)
    (patterns : Option (List String)) (recursive : Bool) : List PurePath :=
  let pats := patterns.getD ["*.pdf", "*.docx", "*.pptx", "*.txt", "*.html"]
  let files := pats.flatMap (fun p => if recursive then rglobMatches p else globMatches p)
  List.insertionSort pathLe files.dedup

/-- `BatchProcessor.__init__` (`batch_processor.py` lines 22-34): the
stored worker count, with the source's default value. -/
structure BatchProcessor where
  maxWorkers : Int
deriving DecidableEq, Repr

/-- `BatchProcessor(config, max_workers=4)`: the constructor's default. -/
def BatchProcessor.init (maxWorkers : Int := 4) : BatchProcessor :=
  { maxWorkers := maxWorkers }

/-- A collaborator oracle where every external call succeeds and the PDF
renderer produces two pages; used to instantiate concrete scenarios. -/
def okCollaborators : Collaborators where
  fileExists := fun _ => true
  docxConverterToPdf := fun _ out => .ok out
  docxConverterTxtToPdf := fun _ out => .ok out
  docxConverterToHtml := fun _ out => .ok out
  htmlConverterToPdf := fun _ out => .ok out
  convertFromPath := fun _ => .ok [(), ()]

/-- A collaborator oracle where every external call raises; used to
instantiate the all-tasks-fail scenarios. -/
def failCollaborators : Collaborators where
  fileExists := fun _ => true
  docxConverterToPdf := fun _ _ => .error "renderer unavailable"
  docxConverterTxtToPdf := fun _ _ => .error "renderer unavailable"
  docxConverterToHtml := fun _ _ => .error "renderer unavailable"
  htmlConverterToPdf := fun _ _ => .error "renderer unavailable"
  convertFromPath := fun _ => .error "renderer unavailable"

end DocConv

namespace DocConv

/-! ## Concrete sample paths used by witnesses and counterexamples -/

/-- Sample input `in/a.docx`. -/
def docA : PurePath := ⟨"in", "a", ".docx"⟩

/-- Sample input `in2/a.docx`: a distinct file sharing `docA`'s stem. -/
def docB : PurePath := ⟨"in2", "a", ".docx"⟩

/-- Sample input `in/b.txt`. -/
def txtB : PurePath := ⟨"in", "b", ".txt"⟩

/-- Sample input `in/slides.pptx`. -/
def pptxA : PurePath := ⟨"in", "slides", ".pptx"⟩

/-- Sample input `in/report.pdf`. -/
def pdfA : PurePath := ⟨"in", "report", ".pdf"⟩

/-! ## The aggregation loop: master lemma -/

/-- When the progress callback never raises, the `as_completed` loop
consumes every completion, returning the aggregate of all per-file
outcomes in completion order and a final count increased by one per
completion. -/
theorem run_completions_ok (c : Collaborators) (outputDir targetFormat : String)
    (total : Nat) (cb : Option ProgressCallback)
    (hcb : ∀ g a b n, cb = some g → g a b n = Except.ok ()) :
    ∀ (order : List PurePath) (s : BatchSummary) (cnt : Nat),
      run_completions c outputDir targetFormat total cb (s, cnt) order =
        Except.ok
          ({ total_files := s.total_files,
             successful := s.successful + (order.filterMap (fun f =>
               (convert_single_file c f outputDir targetFormat).toOption)).length,
             failed := s.failed + (order.filterMap (fun f =>
               match convert_single_file c f outputDir targetFormat with
               | .error e => some (⟨f.toStr, e⟩ : ErrorInfo)
               | .ok _ => none)).length,
             results := s.results ++ order.filterMap (fun f =>
               (convert_single_file c f outputDir targetFormat).toOption),
             errors := s.errors ++ order.filterMap (fun f =>
               match convert_single_file c f outputDir targetFormat with
               | .error e => some (⟨f.toStr, e⟩ : ErrorInfo)
               | .ok _ => none) },
           cnt + order.length) := by
  have hstep : ∀ (s : BatchSummary) (cnt : Nat) (f : PurePath),
      completion_step c outputDir targetFormat total cb (s, cnt) f =
        Except.ok
          (((match convert_single_file c f outputDir targetFormat with
            | .ok r => { s with successful := s.successful + 1, results := s.results ++ [r] }
            | .error e => { s with failed := s.failed + 1, errors := s.errors ++ [⟨f.toStr, e⟩] }) : BatchSummary),
           cnt + 1) := by
    intro s cnt f
    cases cb with
    | none => rfl
    | some g =>
      have hg : ∀ a b n, g a b n = Except.ok () := fun a b n => hcb g a b n rfl
      simp [completion_step, hg]
  intro order
  induction order with
  | nil =>
    intro s cnt
    simp [run_completions]
  | cons f rest ih =>
    intro s cnt
    cases hc : convert_single_file c f outputDir targetFormat with
    | ok r =>
      simp only [run_completions, hstep, hc]
      rw [ih]
      simp [hc, Except.toOption, List.filterMap_cons, List.append_assoc]
      omega
    | error e =>
      simp only [run_completions, hstep, hc]
      rw [ih]
      simp [hc, Except.toOption, List.filterMap_cons, List.append_assoc]
      omega

end DocConv

namespace DocConv

/-- In any completion order, ok-outcomes and error-outcomes partition the
completions: the two filtered lists together have one entry per task. -/
theorem outcome_partition (c : Collaborators) (outputDir targetFormat : String) :
    ∀ order : List PurePath,
      (order.filterMap fun f =>
        (convert_single_file c f outputDir targetFormat).toOption).length +
      (order.filterMap fun f =>
        match convert_single_file c f outputDir targetFormat with
        | .error e => some (⟨f.toStr, e⟩ : ErrorInfo)
        | .ok _ => none).length = order.length := by
  intro order
  induction order with
  | nil => rfl
  | cons f rest ih =>
    cases hc : convert_single_file c f outputDir targetFormat with
    | ok r =>
      have h1 : (Except.ok r : Except String TaskResult).toOption = some r := rfl
      simp only [List.filterMap_cons, hc, h1, List.length_cons]
      omega
    | error e =>
      have h1 : (Except.error e : Except String TaskResult).toOption = none := rfl
      simp only [List.filterMap_cons, hc, h1, List.length_cons]
      omega

/-- Right-cancellation of string concatenation. -/
theorem string_append_right_cancel {a b c : String} (h : a ++ c = b ++ c) : a = b :=
  String.ext (List.append_cancel_right (congrArg String.data h))

/-- Left-cancellation of string concatenation. -/
theorem string_append_left_cancel {a b c : String} (h : a ++ b = a ++ c) : b = c :=
  String.ext (List.append_cancel_left (congrArg String.data h))

/-- C1: for every batch that reaches task execution, every submitted task
yields exactly one outcome: a conversion exception is caught at the task
boundary and recorded as a failure entry `{file, error}`, it aborts
neither sibling tasks nor the batch, and (as long as the progress
callback itself does not raise) the batch call returns a `BatchSummary`
containing exactly one entry per task - it never raises, even if every
task failed. -/
theorem C1_per_task_outcome_isolation
    (c : Collaborators) (cb : Option ProgressCallback)
    (files completionOrder : List PurePath) (outputDir targetFormat : String)
    (maxWorkers : Int) (hw : 1 ≤ maxWorkers) (_hperm : completionOrder.Perm files)
    (hcb : ∀ g a b n, cb = some g → g a b n = Except.ok ()) :
    process_files_parallel c cb files completionOrder outputDir targetFormat maxWorkers =
      Except.ok
        { total_files := files.length,
          successful := (completionOrder.filterMap fun f =>
            (convert_single_file c f outputDir targetFormat).toOption).length,
          failed := (completionOrder.filterMap fun f =>
            match convert_single_file c f outputDir targetFormat with
            | .error e => some (⟨f.toStr, e⟩ : ErrorInfo)
            | .ok _ => none).length,
          results := completionOrder.filterMap fun f =>
            (convert_single_file c f outputDir targetFormat).toOption,
          errors := completionOrder.filterMap fun f =>
            match convert_single_file c f outputDir targetFormat with
            | .error e => some (⟨f.toStr, e⟩ : ErrorInfo)
            | .ok _ => none } := by
  have h0 : ¬ maxWorkers ≤ 0 := by omega
  simp only [process_files_parallel, if_neg h0,
    run_completions_ok c outputDir targetFormat files.length cb hcb, Except.map]
  simp

/-- Closed instance of `C1_per_task_outcome_isolation`: a two-file batch
in which every external collaborator call raises still returns a
`BatchSummary`, with one failure entry per task. -/
theorem C1_witness :
    process_files_parallel failCollaborators none [docA, txtB] [txtB, docA] "out" "pdf" 4 =
      Except.ok
        { total_files := 2, successful := 0, failed := 2, results := [],
          errors := [⟨"in/b.txt", "renderer unavailable"⟩,
                     ⟨"in/a.docx", "renderer unavailable"⟩] } := by
  rw [C1_per_task_outcome_isolation failCollaborators none [docA, txtB] [txtB, docA]
    "out" "pdf" 4 (by omega) (by decide) (fun g a b n h => nomatch h)]
  rfl

/-- C2: when batch processing completes, the summary satisfies
`successful + failed = total_files`, `total_files` equals the number of
submitted files (fixed before any task runs), and
`len(results) + len(errors) = total_files`: no outcome is dropped. -/
theorem C2_summary_count_invariants
    (c : Collaborators) (cb : Option ProgressCallback)
    (files completionOrder : List PurePath) (outputDir targetFormat : String)
    (maxWorkers : Int) (hw : 1 ≤ maxWorkers) (hperm : completionOrder.Perm files)
    (hcb : ∀ g a b n, cb = some g → g a b n = Except.ok ()) :
    ∃ s : BatchSummary,
      process_files_parallel c cb files completionOrder outputDir targetFormat maxWorkers =
        Except.ok s ∧
      s.successful + s.failed = s.total_files ∧
      s.total_files = files.length ∧
      s.results.length + s.errors.length = s.total_files := by
  have h0 : ¬ maxWorkers ≤ 0 := by omega
  refine ⟨{ total_files := files.length,
            successful := (completionOrder.filterMap fun f =>
              (convert_single_file c f outputDir targetFormat).toOption).length,
            failed := (completionOrder.filterMap fun f =>
              match convert_single_file c f outputDir targetFormat with
              | .error e => some (⟨f.toStr, e⟩ : ErrorInfo)
              | .ok _ => none).length,
            results := completionOrder.filterMap fun f =>
              (convert_single_file c f outputDir targetFormat).toOption,
            errors := completionOrder.filterMap fun f =>
              match convert_single_file c f outputDir targetFormat with
              | .error e => some (⟨f.toStr, e⟩ : ErrorInfo)
              | .ok _ => none }, ?_, ?_, rfl, ?_⟩
  · simp only [process_files_parallel, if_neg h0,
      run_completions_ok c outputDir targetFormat files.length cb hcb, Except.map]
    simp
  · simpa using
      (outcome_partition c outputDir targetFormat completionOrder).trans
        hperm.length_eq
  · simpa using
      (outcome_partition c outputDir targetFormat completionOrder).trans
        hperm.length_eq

/-- Closed instance of `C2_summary_count_invariants` on a concrete
two-file batch with one success and one failure. -/
theorem C2_witness :
    ∃ s : BatchSummary,
      process_files_parallel
        { okCollaborators with docxConverterToPdf := fun _ _ => .error "boom" }
        none [docA, txtB] [txtB, docA] "out" "pdf" 4 = Except.ok s ∧
      s.successful + s.failed = s.total_files ∧
      s.total_files = ([docA, txtB] : List PurePath).length ∧
      s.results.length + s.errors.length = s.total_files :=
  C2_summary_count_invariants
    { okCollaborators with docxConverterToPdf := fun _ _ => .error "boom" }
    none [docA, txtB] [txtB, docA] "out" "pdf" 4 (by omega) (by decide)
    (fun g a b n h => nomatch h)

/-- C4: the worker count defaults to 4, and any worker count below 1
makes the batch engine fail with the invalid-configuration error raised
by the pool constructor, before any task runs (the result does not
depend on the collaborators, so no conversion is ever consulted). -/
theorem C4_worker_count_validation :
    (BatchProcessor.init : BatchProcessor) = { maxWorkers := 4 } ∧
    ∀ (c : Collaborators) (cb : Option ProgressCallback)
      (files completionOrder : List PurePath) (outputDir targetFormat : String)
      (w : Int), w < 1 →
      process_files_parallel c cb files completionOrder outputDir targetFormat w =
        Except.error "max_workers must be greater than 0" := by
  refine ⟨rfl, ?_⟩
  intro c cb files completionOrder outputDir targetFormat w hw
  simp only [process_files_parallel, if_pos (show w ≤ 0 by omega)]

/-- Closed instance of `C4_worker_count_validation` at `max_workers = 0`. -/
theorem C4_witness :
    process_files_parallel okCollaborators none [docA] [docA] "out" "pdf" 0 =
      Except.error "max_workers must be greater than 0" :=
  C4_worker_count_validation.2 okCollaborators none [docA] [docA] "out" "pdf" 0
    (by omega)

/-- C5 counterexample: two distinct input files (different directories,
same stem) in the same batch with the same target format are mapped to
the same output path, so the claim "distinct files get distinct output
paths" is false as stated. -/
theorem C5_counterexample :
    docA ≠ docB ∧
    singleOutputPath "out" docA "pdf" = singleOutputPath "out" docB "pdf" ∧
    convert_single_file okCollaborators docA "out" "pdf" =
      Except.ok (TaskResult.singleFile "in/a.docx" "out/a.pdf" "pdf") ∧
    convert_single_file okCollaborators docB "out" "pdf" =
      Except.ok (TaskResult.singleFile "in2/a.docx" "out/a.pdf" "pdf") :=
  ⟨by decide, rfl, rfl, rfl⟩

/-- C5 (amended): files with distinct stems get distinct output paths,
both for single-file targets and for the per-input image subdirectory. -/
theorem C5_distinct_stems_distinct_outputs :
    ∀ (outputDir : String) (f₁ f₂ : PurePath) (targetFormat : String),
      f₁.stem ≠ f₂.stem →
      singleOutputPath outputDir f₁ targetFormat ≠ singleOutputPath outputDir f₂ targetFormat ∧
      imagesOutputDir outputDir f₁ ≠ imagesOutputDir outputDir f₂ := by
  intro outputDir f₁ f₂ targetFormat h
  constructor
  · intro he
    simp only [singleOutputPath] at he
    exact h (string_append_left_cancel
      (string_append_right_cancel (string_append_right_cancel he)))
  · intro he
    simp only [imagesOutputDir] at he
    exact h (string_append_left_cancel (string_append_right_cancel he))

/-- Closed instance of `C5_distinct_stems_distinct_outputs` for stems
`a` and `b`. -/
theorem C5_witness :
    singleOutputPath "out" docA "pdf" ≠ singleOutputPath "out" txtB "pdf" ∧
    imagesOutputDir "out" docA ≠ imagesOutputDir "out" txtB :=
  C5_distinct_stems_distinct_outputs "out" docA txtB "pdf" (by decide)

/-- A progress callback that raises on every invocation. -/
def boomCallback : ProgressCallback := fun _ _ _ => .error "callback boom"

/-- C10: a raising progress callback propagates out of the batch call:
the engine returns the callback's exception instead of a `BatchSummary`,
so the outcome of the second task is discarded - the no-raise guarantee
covers only exceptions inside a task's conversion. -/
theorem C10_callback_exception_propagates :
    process_files_parallel okCollaborators (some boomCallback) [docA, txtB] [docA, txtB]
      "out" "pdf" 4 = Except.error "callback boom" := rfl

end DocConv

namespace DocConv

/-- The increments appearing in the loop's event trace, starting at
`count`, are exactly `count+1, count+2, ..., count + n` for `n`
completions: one increment per completion, never skipped or repeated. -/
theorem batch_events_increments (c : Collaborators) (outputDir targetFormat : String)
    (hasCallback : Bool) (total : Nat) :
    ∀ (order : List PurePath) (count : Nat),
      (batch_events c outputDir targetFormat hasCallback total count order).filterMap
        (fun e => match e with | SchedulerEvent.increment k => some k | _ => none) =
      List.range' (count + 1) order.length := by
  intro order
  induction order with
  | nil => intro count; rfl
  | cons f rest ih =>
    intro count
    cases hc : convert_single_file c f outputDir targetFormat with
    | ok r =>
      cases hasCallback <;>
        simp [batch_events, completion_events, hc, List.filterMap_append,
          List.filterMap_cons, ih, List.range'_succ]
    | error e =>
      cases hasCallback <;>
        simp [batch_events, completion_events, hc, List.filterMap_append,
          List.filterMap_cons, ih, List.range'_succ]

/-- C3: for every batch of N tasks, the shared progress counter's
increment events are exactly `1, 2, ..., N` in trace order - so the
counter stays within `0 ≤ completed_count ≤ N`, is monotonically
non-decreasing, is incremented exactly once per task completion (success
or failure, callback present or not), reaches exactly N, and the batch
result is independent of the worker count (for any valid worker count). -/
theorem C3_progress_counter_invariants (c : Collaborators)
    (cb : Option ProgressCallback) (files completionOrder : List PurePath)
    (outputDir targetFormat : String) (hasCallback : Bool)
    (hperm : completionOrder.Perm files) :
    let incs := (batch_events c outputDir targetFormat hasCallback files.length 0
      completionOrder).filterMap
      (fun e => match e with | SchedulerEvent.increment k => some k | _ => none)
    incs = List.range' 1 files.length ∧
    incs.length = files.length ∧
    incs.Chain' (· ≤ ·) ∧
    (∀ k ∈ incs, 1 ≤ k ∧ k ≤ files.length) ∧
    (∀ w₁ w₂ : Int, 1 ≤ w₁ → 1 ≤ w₂ →
      process_files_parallel c cb files completionOrder outputDir targetFormat w₁ =
        process_files_parallel c cb files completionOrder outputDir targetFormat w₂) := by
  intro incs
  have hinc := batch_events_increments c outputDir targetFormat hasCallback
    files.length completionOrder 0
  rw [hperm.length_eq] at hinc
  simp only [Nat.zero_add] at hinc
  refine ⟨hinc, ?_, ?_, ?_, ?_⟩
  · show incs.length = files.length
    rw [show incs = List.range' 1 files.length from hinc, List.length_range']
  · show incs.Chain' (· ≤ ·)
    rw [show incs = List.range' 1 files.length from hinc]
    exact (List.pairwise_le_range' 1 files.length).chain'
  · intro k hk
    rw [show incs = List.range' 1 files.length from hinc, List.mem_range'_1] at hk
    omega
  · intro w₁ w₂ h₁ h₂
    simp only [process_files_parallel, if_neg (show ¬ w₁ ≤ 0 by omega),
      if_neg (show ¬ w₂ ≤ 0 by omega)]

/-- Closed instance of `C3_progress_counter_invariants` on a concrete
two-file batch completing in reversed order. -/
theorem C3_witness :
    let incs := (batch_events okCollaborators "out" "pdf" true 2 0
      [txtB, docA]).filterMap
      (fun e => match e with | SchedulerEvent.increment k => some k | _ => none)
    incs = List.range' 1 2 ∧
    incs.length = 2 ∧
    incs.Chain' (· ≤ ·) ∧
    (∀ k ∈ incs, 1 ≤ k ∧ k ≤ 2) ∧
    (∀ w₁ w₂ : Int, 1 ≤ w₁ → 1 ≤ w₂ →
      process_files_parallel okCollaborators none [docA, txtB] [txtB, docA] "out" "pdf" w₁ =
        process_files_parallel okCollaborators none [docA, txtB] [txtB, docA] "out" "pdf" w₂) :=
  C3_progress_counter_invariants okCollaborators none [docA, txtB] [txtB, docA]
    "out" "pdf" true (by decide)

/-- C9 (amended): for every task completion the loop body's steps occur
in this order: first the outcome is handed to the aggregator (recorded in
the results dictionary), then the shared counter is incremented under the
lock, and then - still under the lock - `on_progress` is invoked if a
callback was provided. -/
theorem C9_completion_step_order (outcome : Except String TaskResult)
    (file : PurePath) (count total : Nat) :
    ∃ rec : SchedulerEvent,
      ((∃ r, outcome = Except.ok r ∧ rec = SchedulerEvent.recordSuccess file.toStr) ∨
       (∃ e, outcome = Except.error e ∧ rec = SchedulerEvent.recordFailure file.toStr e)) ∧
      completion_events outcome file count total true =
        [rec, SchedulerEvent.increment (count + 1),
         SchedulerEvent.progressCall (count + 1) total file.name] ∧
      completion_events outcome file count total false =
        [rec, SchedulerEvent.increment (count + 1)] := by
  cases outcome with
  | ok r => exact ⟨SchedulerEvent.recordSuccess file.toStr, Or.inl ⟨r, rfl, rfl⟩, rfl, rfl⟩
  | error e =>
    exact ⟨SchedulerEvent.recordFailure file.toStr e, Or.inr ⟨e, rfl, rfl⟩, rfl, rfl⟩

/-- C9 counterexample: on a concrete successful completion the first
step of the loop body is handing the result to the aggregator, not the
counter increment that the claim puts first. -/
theorem C9_counterexample :
    (completion_events (Except.ok (TaskResult.singleFile "in/a.docx" "out/a.pdf" "pdf"))
        docA 0 1 true).head? =
      some (SchedulerEvent.recordSuccess "in/a.docx") ∧
    (completion_events (Except.ok (TaskResult.singleFile "in/a.docx" "out/a.pdf" "pdf"))
        docA 0 1 true).head? ≠ some (SchedulerEvent.increment 1) :=
  ⟨rfl, by decide⟩

end DocConv

namespace DocConv

/-- C8: file discovery returns a list with no duplicate paths, sorted by
the total order on rendered path strings; when no patterns are given it
uses the default pattern set, and over an unchanged directory (oracles
agreeing on every pattern) it returns element-wise identical lists. -/
theorem C8_find_files_deduped_sorted_deterministic
    (globMatches rglobMatches : String → List PurePath)
    (patterns : Option (List String)) (recursive : Bool) :
    (find_files globMatches rglobMatches patterns recursive).Nodup ∧
    List.Sorted pathLe (find_files globMatches rglobMatches patterns recursive) ∧
    find_files globMatches rglobMatches none recursive =
      find_files globMatches rglobMatches
        (some ["*.pdf", "*.docx", "*.pptx", "*.txt", "*.html"]) recursive := by
  refine ⟨?_, ?_, rfl⟩
  · simp only [find_files]
    exact (List.perm_insertionSort pathLe _).symm.nodup (List.nodup_dedup _)
  · simp only [find_files]
    exact List.sorted_insertionSort pathLe _

/-- C7 counterexample: for the out-of-table pair `(docx, gif)` the raised
error names only the target format - the very same message is raised for
`(pptx, gif)` - so the error does not identify the input/target pair as
the claim states. -/
theorem C7_counterexample :
    convert_single_file okCollaborators docA "out" "gif" =
      Except.error "Unsupported target format: gif" ∧
    convert_single_file okCollaborators pptxA "out" "gif" =
      Except.error "Unsupported target format: gif" :=
  ⟨rfl, rfl⟩

/-- C7 (amended): the conversion routing maps `(docx, pdf)`, `(pptx, pdf)`,
`(txt, pdf)`, `(html, pdf)` and `(docx, html)` to the corresponding
single-file operations, `(pdf, jpeg)` and `(pdf, png)` to the multi-image
operation, and every pair outside this table fails with an
unsupported-conversion `ValueError` - whose message identifies the pair
when the target format is one of pdf/html/jpeg/png, and identifies only
the target format otherwise. -/
theorem C7_conversion_routing (c : Collaborators) (f : PurePath) (outputDir : String) :
    (inputExtOf f = "docx" →
      convert_single_file c f outputDir "pdf" =
        (DocumentConverter.docx_to_pdf c f (singleOutputPath outputDir f "pdf")).map
          (fun p => TaskResult.singleFile f.toStr p "pdf")) ∧
    (inputExtOf f = "pptx" →
      convert_single_file c f outputDir "pdf" =
        (DocumentConverter.pptx_to_pdf c f (singleOutputPath outputDir f "pdf")).map
          (fun p => TaskResult.singleFile f.toStr p "pdf")) ∧
    (inputExtOf f = "txt" →
      convert_single_file c f outputDir "pdf" =
        (DocumentConverter.txt_to_pdf c f (singleOutputPath outputDir f "pdf")).map
          (fun p => TaskResult.singleFile f.toStr p "pdf")) ∧
    (inputExtOf f = "html" →
      convert_single_file c f outputDir "pdf" =
        (DocumentConverter.html_to_pdf c f.toStr (singleOutputPath outputDir f "pdf")).map
          (fun p => TaskResult.singleFile f.toStr p "pdf")) ∧
    (inputExtOf f = "docx" →
      convert_single_file c f outputDir "html" =
        (DocumentConverter.docx_to_html c f (singleOutputPath outputDir f "html")).map
          (fun p => TaskResult.singleFile f.toStr p "html")) ∧
    (∀ targetFormat, (targetFormat = "jpeg" ∨ targetFormat = "png") →
      inputExtOf f = "pdf" →
      convert_single_file c f outputDir targetFormat =
        (DocumentConverter.pdf_to_images c f (imagesOutputDir outputDir f)
            targetFormat).map
          (fun outs => TaskResult.multipleImages f.toStr outs targetFormat)) ∧
    (∀ targetFormat, (targetFormat = "jpeg" ∨ targetFormat = "png") →
      inputExtOf f ≠ "pdf" →
      convert_single_file c f outputDir targetFormat =
        Except.error ("Cannot convert " ++ inputExtOf f ++ " to " ++ targetFormat)) ∧
    (inputExtOf f ∉ (["docx", "pptx", "txt", "html"] : List String) →
      convert_single_file c f outputDir "pdf" =
        Except.error ("Cannot convert " ++ inputExtOf f ++ " to PDF")) ∧
    (inputExtOf f ≠ "docx" →
      convert_single_file c f outputDir "html" =
        Except.error ("Cannot convert " ++ inputExtOf f ++ " to HTML")) ∧
    (∀ targetFormat, targetFormat ∉ (["pdf", "html", "jpeg", "png"] : List String) →
      convert_single_file c f outputDir targetFormat =
        Except.error ("Unsupported target format: " ++ targetFormat)) := by
  refine ⟨?_, ?_, ?_, ?_, ?_, ?_, ?_, ?_, ?_, ?_⟩
  · intro h; simp [convert_single_file, h]
  · intro h; simp [convert_single_file, h]
  · intro h; simp [convert_single_file, h]
  · intro h; simp [convert_single_file, h]
  · intro h; simp [convert_single_file, h]
  · rintro targetFormat (rfl | rfl) h <;> simp [convert_single_file, h]
  · rintro targetFormat (rfl | rfl) h <;> simp [convert_single_file, h]
  · intro h
    simp only [List.mem_cons, List.mem_singleton, not_or] at h
    obtain ⟨h1, h2, h3, h4, -⟩ := h
    simp [convert_single_file, Except.map, h1, h2, h3, h4]
  · intro h; simp [convert_single_file, Except.map, h]
  · intro targetFormat h
    simp only [List.mem_cons, List.mem_singleton, not_or] at h
    obtain ⟨h1, h2, h3, h4, -⟩ := h
    simp [convert_single_file, h1, h2, h3, h4]

/-- Closed instance of `C7_conversion_routing`: `(docx, pdf)` routes to
the office-renderer single-file operation, `(pdf, jpeg)` routes to the
multi-image operation, and `(docx, jpeg)` fails with the
unsupported-conversion error naming the pair. -/
theorem C7_witness :
    convert_single_file okCollaborators docA "out" "pdf" =
      (DocumentConverter.docx_to_pdf okCollaborators docA
          (singleOutputPath "out" docA "pdf")).map
        (fun p => TaskResult.singleFile docA.toStr p "pdf") ∧
    convert_single_file okCollaborators pdfA "out" "jpeg" =
      (DocumentConverter.pdf_to_images okCollaborators pdfA
          (imagesOutputDir "out" pdfA) "jpeg").map
        (fun outs => TaskResult.multipleImages pdfA.toStr outs "jpeg") ∧
    convert_single_file okCollaborators docA "out" "jpeg" =
      Except.error ("Cannot convert " ++ inputExtOf docA ++ " to " ++ "jpeg") :=
  ⟨(C7_conversion_routing okCollaborators docA "out").1 (by decide),
   (C7_conversion_routing okCollaborators pdfA "out").2.2.2.2.2.1 "jpeg"
     (Or.inl rfl) (by decide),
   (C7_conversion_routing okCollaborators docA "out").2.2.2.2.2.2.1 "jpeg"
     (Or.inl rfl) (by decide)⟩

end DocConv

namespace DocConv

set_option maxRecDepth 10000

/-- Below 1000, the zero-padded page index consists of exactly the three
decimal digits (hundreds, tens, ones). -/
theorem pad03_data_lt_1000 : ∀ n : Nat, n < 1000 → (pad03 n).data =
    [Nat.digitChar (n / 100), Nat.digitChar (n / 10 % 10), Nat.digitChar (n % 10)] := by
  decide

/-- `Nat.digitChar` is strictly monotone on decimal digits. -/
theorem digitChar_lt_of_lt : ∀ b : Nat, b < 10 → ∀ a : Nat, a < b →
    Nat.digitChar a < Nat.digitChar b := by decide

/-- Lexicographic comparison is preserved by a common prefix. -/
theorem lex_append_left (p : List Char) {xs ys : List Char}
    (h : List.Lex (· < ·) xs ys) : List.Lex (· < ·) (p ++ xs) (p ++ ys) := by
  induction p with
  | nil => simpa using h
  | cons a p ih => exact List.Lex.cons ih

/-- A lexicographic comparison between lists of equal length is preserved
by appending arbitrary tails. -/
theorem lex_append_of_lex {xs ys : List Char} (h : List.Lex (· < ·) xs ys)
    (hlen : xs.length = ys.length) (zs ws : List Char) :
    List.Lex (· < ·) (xs ++ zs) (ys ++ ws) := by
  induction h with
  | nil => simp at hlen
  | @cons a l₁ l₂ h ih => exact List.Lex.cons (ih (by simpa using hlen))
  | @rel a l₁ b l₂ hab => exact List.Lex.rel hab

/-- Below 1000, zero-padded page indices compare lexicographically like
the page numbers themselves. -/
theorem pad03_lex_lt {m n : Nat} (hmn : m < n) (hn : n < 1000) :
    List.Lex (· < ·) (pad03 m).data (pad03 n).data := by
  have hm : m < 1000 := lt_trans hmn hn
  rw [pad03_data_lt_1000 m hm, pad03_data_lt_1000 n hn]
  by_cases h1 : m / 100 < n / 100
  · exact List.Lex.rel (digitChar_lt_of_lt _ (by omega) _ h1)
  · have e1 : m / 100 = n / 100 := by omega
    rw [e1]
    by_cases h2 : m / 10 % 10 < n / 10 % 10
    · exact List.Lex.cons (List.Lex.rel (digitChar_lt_of_lt _ (by omega) _ h2))
    · have e2 : m / 10 % 10 = n / 10 % 10 := by omega
      rw [e2]
      have h3 : m % 10 < n % 10 := by omega
      exact List.Lex.cons (List.Lex.cons
        (List.Lex.rel (digitChar_lt_of_lt _ (by omega) _ h3)))

/-- Below 1000, page file names compare lexicographically like the page
numbers: `page_007.jpeg < page_012.jpeg`. -/
theorem pageFilename_lt {m n : Nat} (hmn : m < n) (hn : n < 1000)
    (format : String) : pageFilename m format < pageFilename n format := by
  rw [String.lt_iff_toList_lt]
  show List.Lex (· < ·) (pageFilename m format).data (pageFilename n format).data
  have hdata : ∀ k : Nat, (pageFilename k format).data =
      "page_".data ++ ((pad03 k).data ++ (("." ++ pyLower format).data)) := by
    intro k
    show ((("page_" ++ pad03 k) ++ ".") ++ pyLower format).data = _
    simp [List.append_assoc]
  rw [hdata m, hdata n]
  refine lex_append_left _ (lex_append_of_lex (pad03_lex_lt hmn hn) ?_ _ _)
  rw [pad03_data_lt_1000 m (lt_trans hmn hn), pad03_data_lt_1000 n hn]
  rfl

end DocConv

namespace DocConv

/-- C6 (amended): converting a PDF to an image target writes outputs
under the per-input subdirectory `<output_dir>/<input_stem>_images/`
with page files `page_NNN.<ext>` using zero-padded page indices of
minimum width 3, and for every page count of at most 999 the
lexicographic order of the generated file names equals the page order. -/
theorem C6_image_naming (c : Collaborators) (f : PurePath)
    (outputDir targetFormat : String) (k : Nat)
    (htgt : targetFormat = "jpeg" ∨ targetFormat = "png")
    (hext : inputExtOf f = "pdf")
    (hexists : c.fileExists f = true)
    (hrender : c.convertFromPath f = Except.ok (List.replicate k ()))
    (hk : k ≤ 999) :
    convert_single_file c f outputDir targetFormat =
      Except.ok (TaskResult.multipleImages f.toStr
        ((List.range k).map fun i =>
          imagesOutputDir outputDir f ++ "/" ++ pageFilename (1 + i) targetFormat)
        targetFormat) ∧
    (∀ i, i < k → (pageFilename (1 + i) targetFormat).data =
      "page_".data ++ (pad03 (1 + i)).data ++ ("." ++ pyLower targetFormat).data ∧
      (pad03 (1 + i)).length = 3) ∧
    List.Pairwise (· < ·)
      ((List.range k).map fun i => pageFilename (1 + i) targetFormat) := by
  refine ⟨?_, ?_, ?_⟩
  · rcases htgt with rfl | rfl <;>
      simp [convert_single_file, DocumentConverter.pdf_to_images,
        PDFConverter.to_images, hext, hexists, hrender, Except.map,
        imagesOutputDir]
  · intro i hi
    constructor
    · show ((("page_" ++ pad03 (1 + i)) ++ ".") ++ pyLower targetFormat).data = _
      simp [List.append_assoc]
    · show (pad03 (1 + i)).data.length = 3
      rw [pad03_data_lt_1000 (1 + i) (by omega)]
      rfl
  · rw [List.pairwise_map]
    refine (List.pairwise_lt_range k).imp_of_mem ?_
    intro a b ha hb hab
    exact pageFilename_lt (by omega) (by have := List.mem_range.mp hb; omega) _

/-- A collaborator oracle whose PDF renderer produces twelve pages. -/
def pdf12Collaborators : Collaborators :=
  { okCollaborators with convertFromPath := fun _ => .ok (List.replicate 12 ()) }

/-- Closed instance of `C6_image_naming`: a 12-page PDF converted to
jpeg yields `page_001.jpeg` through `page_012.jpeg` in the dedicated
subdirectory, in lexicographic order equal to page order. -/
theorem C6_witness :
    convert_single_file pdf12Collaborators pdfA "out" "jpeg" =
      Except.ok (TaskResult.multipleImages pdfA.toStr
        ((List.range 12).map fun i =>
          imagesOutputDir "out" pdfA ++ "/" ++ pageFilename (1 + i) "jpeg")
        "jpeg") ∧
    (∀ i, i < 12 → (pageFilename (1 + i) "jpeg").data =
      "page_".data ++ (pad03 (1 + i)).data ++ ("." ++ pyLower "jpeg").data ∧
      (pad03 (1 + i)).length = 3) ∧
    List.Pairwise (· < ·)
      ((List.range 12).map fun i => pageFilename (1 + i) "jpeg") :=
  C6_image_naming pdf12Collaborators pdfA "out" "jpeg" 12 (Or.inl rfl)
    (by decide) rfl rfl (by omega)

/-- C6 counterexample: the claim's "for every page count" fails at page
1000 - the generated name of page 1000 sorts lexicographically before
the name of page 999, so lexicographic order no longer equals page
order on a 1000-page PDF. -/
theorem C6_counterexample :
    pageFilename 1000 "jpeg" < pageFilename 999 "jpeg" ∧
    ¬ pageFilename 999 "jpeg" < pageFilename 1000 "jpeg" := by
  constructor
  · rw [String.lt_iff_toList_lt]; decide
  · rw [String.lt_iff_toList_lt]; decide

end DocConv
